import Mathlib

/-!
Verification of `src/abilities/power-meter.js` (homebridge-shelly).

The file shallowly embeds the two ability classes of the source file:
`PowerMeterAbility` (live power / current / voltage metrics) and
`PowerConsumptionAbility` (FakeGato history logging).  Device readings and
characteristic values are modelled as rationals, the device's event emitter
as a list of (event name, handler, context) registrations, and a service as
a partial map from characteristic names to values together with the ordered
log of writes performed on it.
-/

namespace PowerMeterModel

/-- The external device object: a map from property names (strings) to
numeric readings, plus the identifier fields the source reads
(`this.device.id`, `this.device.type`). -/
structure Device where
  props : String → ℚ
  id : String
  type : String

/-- Characteristic types used by the source file:
`ConsumptionCharacteristic`, `ElectricCurrentCharacteristic`,
`VoltageCharacteristic`, `TotalConsumptionCharacteristic`. -/
inductive CName where
  | consumption
  | electricCurrent
  | voltage
  | totalConsumption
deriving DecidableEq, Repr

/-- A service instance: the current value of each characteristic (none when
never set) together with the chronological log of writes (`setCharacteristic`
and `setValue` calls) performed on it. -/
structure SvcState where
  chars : CName → Option ℚ
  writes : List (CName × ℚ)

/-- A write to a characteristic: both `Service.setCharacteristic(C, v)` and
`service.getCharacteristic(C).setValue(v)` store the value and are recorded
in the write log. -/
def SvcState.setChar (s : SvcState) (c : CName) (v : ℚ) : SvcState :=
  { chars := fun x => if x = c then some v else s.chars x
    writes := s.writes ++ [(c, v)] }

/-- A fresh service: no characteristic set, no write performed. -/
def emptySvc : SvcState := ⟨fun _ => none, []⟩

/-- JavaScript truthiness of the nullable string properties
(`this._electricCurrentProperty`, `this._voltageProperty`): `null` and the
empty string are falsy, every other string is truthy. -/
def strTruthy : Option String → Bool
  | none => false
  | some s => !(s == "")

/-- The string used when a nullable property name is used as an object key
or concatenated (`'change:' + p`): JavaScript coerces `null` to `"null"`.
The source only does this on truthy (hence `some`, non-empty) values. -/
def optKey : Option String → String
  | none => "null"
  | some s => s

/-- The four bound methods that the source registers as event listeners. -/
inductive Handler where
  | consumptionChange
  | electricCurrentChange
  | voltageChange
  | histConsumptionChange
deriving DecidableEq, Repr

/-- One registration on the device's event emitter, as identified by the
`on` / `removeListener` API: event name, handler function, context. -/
structure Listener where
  event : String
  handler : Handler
  ctx : ℕ
deriving DecidableEq, Repr

/-- `device.on(event, handler, context)`: appends a registration. -/
def emitOn (ls : List Listener) (e : String) (h : Handler) (c : ℕ) :
    List Listener :=
  ls ++ [⟨e, h, c⟩]

/-- `device.removeListener(event, handler, context)`: removes the first
matching registration, if any. -/
def removeListener (e : String) (h : Handler) (c : ℕ) :
    List Listener → List Listener
  | [] => []
  | l :: ls =>
      if l = ⟨e, h, c⟩ then ls else l :: removeListener e h c ls

/-- Modelled from the spec: the base class `Ability._setupEventHandlers`
(from `src/abilities/base.js`, which is not part of the sources here)
registers no device listeners of its own — per the spec an ability
"registers one change listener per configured property", all of which are
added by the subclass overrides below. -/
def baseSetupEventHandlers (ls : List Listener) : List Listener := ls

/-- Modelled from the spec: the base class `Ability.detach` (from
`src/abilities/base.js`, not part of the sources here) removes no device
listeners of its own — per the spec "detach unregisters exactly the
listeners it registered", all removed by the subclass overrides below. -/
def baseDetach (ls : List Listener) : List Listener := ls

/-- Constructor state of `PowerMeterAbility`: the consumption property name
and the two optional property names (`null` by default). -/
structure PowerMeterAbility where
  consumptionProperty : String
  electricCurrentProperty : Option String
  voltageProperty : Option String

/-- `get consumption()`:
`Math.min(Math.max(this.device[this._consumptionProperty], 0), 65535)`. -/
def PowerMeterAbility.consumption (a : PowerMeterAbility) (d : Device) : ℚ :=
  min (max (d.props a.consumptionProperty) 0) 65535

/-- `get electricCurrent()`: `this.device[this._electricCurrentProperty]`,
returned unchanged. -/
def PowerMeterAbility.electricCurrent (a : PowerMeterAbility) (d : Device) : ℚ :=
  d.props (optKey a.electricCurrentProperty)

/-- `get voltage()`: `this.device[this._voltageProperty]`, unchanged. -/
def PowerMeterAbility.voltage (a : PowerMeterAbility) (d : Device) : ℚ :=
  d.props (optKey a.voltageProperty)

/-- `PowerMeterAbility._createService()`: a new `PowerMeterService` seeded
with the consumption value, then optionally with electric current and
voltage when the corresponding property is (truthily) configured. -/
def PowerMeterAbility.createService (a : PowerMeterAbility) (d : Device) :
    SvcState :=
  let s := emptySvc.setChar .consumption (a.consumption d)
  let s :=
    if strTruthy a.electricCurrentProperty then
      s.setChar .electricCurrent (a.electricCurrent d)
    else s
  if strTruthy a.voltageProperty then
    s.setChar .voltage (a.voltage d)
  else s

/-- `PowerMeterAbility._setupEventHandlers()`: always registers the
consumption change handler; registers the electric-current and voltage
handlers when the corresponding property is truthy.  `ctx` models the
`this` context argument. -/
def PowerMeterAbility.setupEventHandlers (a : PowerMeterAbility) (ctx : ℕ)
    (ls : List Listener) : List Listener :=
  let l1 := emitOn (baseSetupEventHandlers ls)
    ("change:" ++ a.consumptionProperty) .consumptionChange ctx
  let l2 :=
    if strTruthy a.electricCurrentProperty then
      emitOn l1 ("change:" ++ optKey a.electricCurrentProperty)
        .electricCurrentChange ctx
    else l1
  if strTruthy a.voltageProperty then
    emitOn l2 ("change:" ++ optKey a.voltageProperty) .voltageChange ctx
  else l2

/-- `PowerMeterAbility.detach()`: removes the consumption listener, then the
electric-current and voltage listeners when configured, then calls
`super.detach()`. -/
def PowerMeterAbility.detach (a : PowerMeterAbility) (ctx : ℕ)
    (ls : List Listener) : List Listener :=
  let l1 := removeListener ("change:" ++ a.consumptionProperty)
    .consumptionChange ctx ls
  let l2 :=
    if strTruthy a.electricCurrentProperty then
      removeListener ("change:" ++ optKey a.electricCurrentProperty)
        .electricCurrentChange ctx l1
    else l1
  let l3 :=
    if strTruthy a.voltageProperty then
      removeListener ("change:" ++ optKey a.voltageProperty)
        .voltageChange ctx l2
    else l2
  baseDetach l3

/-- `PowerMeterAbility._consumptionChangeHandler`: one `setValue` of the
(clamped) consumption on the `ConsumptionCharacteristic`. -/
def pmConsumptionChangeHandler (a : PowerMeterAbility) (d : Device)
    (s : SvcState) : SvcState :=
  s.setChar .consumption (a.consumption d)

/-- `PowerMeterAbility._electricCurrentChangeHandler`: one `setValue` of the
raw electric-current reading on the `ElectricCurrentCharacteristic`. -/
def pmElectricCurrentChangeHandler (a : PowerMeterAbility) (d : Device)
    (s : SvcState) : SvcState :=
  s.setChar .electricCurrent (a.electricCurrent d)

/-- `PowerMeterAbility._voltageChangeHandler`: one `setValue` of the raw
voltage reading on the `VoltageCharacteristic`. -/
def pmVoltageChangeHandler (a : PowerMeterAbility) (d : Device)
    (s : SvcState) : SvcState :=
  s.setChar .voltage (a.voltage d)

/-- `get consumption()` of `PowerConsumptionAbility`:
`Math.min(Math.max(this.device[this._consumptionProperty], 0), 65535)`. -/
def pcConsumption (cp : String) (d : Device) : ℚ :=
  min (max (d.props cp) 0) 65535

/-- `Math.round(new Date().valueOf() / 1000)`: the event's unix time in
milliseconds divided by 1000 and rounded to the nearest integer; Mathlib's
`round` is `⌊x + 1/2⌋`, which is exactly ECMAScript `Math.round` on
non-negative arguments (ties round up). -/
def histTime (ms : ℕ) : ℤ :=
  round ((ms : ℚ) / 1000)

/-- One FakeGato history entry `{time, power}` as passed to `addEntry`. -/
structure HistEntry where
  time : ℤ
  power : ℚ
deriving DecidableEq, Repr

/-- The FakeGato history service object: the constructor arguments the
source supplies (`'energy'`, options `storage`/`path`/`filename`/`minutes`)
together with its inner HomeKit service (`service.service`) and the list of
entries appended via `addEntry`. -/
structure HistSvc where
  kind : String
  storage : String
  path : String
  filename : String
  minutes : ℕ
  svc : SvcState
  entries : List HistEntry

/-- A service attached to the platform accessory, as seen by the removal
loop in `setup`: its `UUID` plus an identity tag distinguishing distinct
service objects. -/
structure ServiceRec where
  uuid : String
  sid : ℕ
deriving DecidableEq, Repr

/-- `FakeGatoHistoryService.UUID` (the Eve history service type UUID,
defined by the external fakegato-history library). -/
def fakeGatoUUID : String := "E863F007-079E-48FF-8F27-9C2605A29F52"

/-- The `for (const s of this.platformAccessory.services) { if (s.UUID ==
FakeGatoHistoryService.UUID) this.platformAccessory.removeService(s) }`
loop of `PowerConsumptionAbility.setup`, with ECMAScript array-iterator
semantics: the iterator yields `arr[idx]` and advances `idx` by one each
step against the *live* array, while `removeService` splices the matched
service out.  Hence after a removal at `idx` the element that shifted down
into `idx` is not examined. -/
def removeLoop (u : String) (arr : List ServiceRec) (idx : ℕ) :
    List ServiceRec :=
  if h : idx < arr.length then
    if (arr.get ⟨idx, h⟩).uuid == u then
      removeLoop u (arr.eraseIdx idx) (idx + 1)
    else
      removeLoop u arr (idx + 1)
  else arr
termination_by arr.length - idx
decreasing_by
  · rw [List.length_eraseIdx_of_lt h]; omega
  · omega

/-- `PowerConsumptionAbility._createService()`: a new
`FakeGatoHistoryService('energy', accessory, {log, storage: 'fs', path:
storagePath + '/accessories', filename: device.id + '_persist.json',
minutes: 10})`, whose inner service is then seeded with the clamped
consumption on the `TotalConsumptionCharacteristic`. -/
def pcCreateService (cp : String) (d : Device) (storagePath : String) :
    HistSvc :=
  { kind := "energy"
    storage := "fs"
    path := storagePath ++ "/accessories"
    filename := d.id ++ "_persist.json"
    minutes := 10
    svc := emptySvc.setChar .totalConsumption (pcConsumption cp d)
    entries := [] }

/-- `PowerConsumptionAbility._setupEventHandlers()`: registers the single
consumption change handler after the base-class hook. -/
def pcSetupEventHandlers (cp : String) (ctx : ℕ) (ls : List Listener) :
    List Listener :=
  emitOn (baseSetupEventHandlers ls) ("change:" ++ cp)
    .histConsumptionChange ctx

/-- `PowerConsumptionAbility.detach()`: removes the single consumption
listener, then calls `super.detach()`. -/
def pcDetach (cp : String) (ctx : ℕ) (ls : List Listener) : List Listener :=
  baseDetach (removeListener ("change:" ++ cp) .histConsumptionChange ctx ls)

/-- Result of `PowerConsumptionAbility.setup`: the ability's `_service`
field, the accessory's service list, the emitter's listener list, and
whether the branch constructing a new history service was taken. -/
structure PCSetupOut where
  service : Option HistSvc
  services : List ServiceRec
  listeners : List Listener
  created : Bool

/-- `PowerConsumptionAbility.setup(accessory)`: when `this._service` is not
already a `FakeGatoHistoryService` instance (modelled: is `none`), runs the
removal loop over the accessory's services and constructs a new history
service (which the FakeGato constructor adds to the accessory, with a fresh
identity tag); otherwise leaves services alone.  Either way it then runs
`_setupEventHandlers`. -/
def pcSetup (cp : String) (d : Device) (storagePath : String)
    (svc : Option HistSvc) (services : List ServiceRec) (fresh : ℕ)
    (ls : List Listener) (ctx : ℕ) : PCSetupOut :=
  if !svc.isSome then
    let services1 := removeLoop fakeGatoUUID services 0
    let newSvc := pcCreateService cp d storagePath
    { service := some newSvc
      services := services1 ++ [⟨fakeGatoUUID, fresh⟩]
      listeners := pcSetupEventHandlers cp ctx ls
      created := true }
  else
    { service := svc
      services := services
      listeners := pcSetupEventHandlers cp ctx ls
      created := false }

/-- `PowerConsumptionAbility._consumptionChangeHandler`: one `setValue` of
the clamped consumption on the `TotalConsumptionCharacteristic`, then one
`addEntry({time: Math.round(Date.now_unixms / 1000), power: consumption})`.
`ms` is the current unix time in milliseconds at the event. -/
def pcConsumptionChangeHandler (cp : String) (d : Device) (ms : ℕ)
    (h : HistSvc) : HistSvc :=
  let h1 := { h with svc := h.svc.setChar .totalConsumption (pcConsumption cp d) }
  { h1 with entries := h1.entries ++ [⟨histTime ms, pcConsumption cp d⟩] }

/-- The clamp exactly as the spec words it: `max(0, min(v, 65535))`. -/
def specClamp (v : ℚ) : ℚ :=
  max 0 (min v 65535)

/-- A concrete device used in concrete evaluations: every property reads 3. -/
def dev0 : Device :=
  ⟨fun _ => 3, "shelly1-AABBCC", "SHSW-1"⟩

/-- A concrete freshly created history service for `dev0`. -/
def hist0 : HistSvc :=
  pcCreateService "power" dev0 "/var/homebridge"

/-- The source's clamp `Math.min(Math.max(v, 0), 65535)` agrees with the
spec's wording `max(0, min(v, 65535))`. -/
lemma min_max_eq_specClamp (v : ℚ) : min (max v 0) 65535 = specClamp v := by
  simp only [specClamp, min_def, max_def]
  split_ifs <;> linarith

/-- Claim C2: for every consumption reading `v` of the device, the value
produced by the consumption accessor equals `max(0, min(v, 65535))`, in both
the live-metrics ability (`PowerMeterAbility.consumption`) and the
history-logging ability (`pcConsumption`). -/
theorem claim2_consumption_clamped (a : PowerMeterAbility) (d : Device)
    (cp : String) :
    a.consumption d = specClamp (d.props a.consumptionProperty)
    ∧ pcConsumption cp d = specClamp (d.props cp) := by
  exact ⟨min_max_eq_specClamp _, min_max_eq_specClamp _⟩

/-- Claim C3: each consumption-change handler performs exactly one
characteristic write, and the written value is the clamped value
`max(0, min(v, 65535))` of the device's current consumption reading — for
the live-metrics handler (on `ConsumptionCharacteristic`) and the history
handler (on `TotalConsumptionCharacteristic`) alike. -/
theorem claim3_one_write_clamped (a : PowerMeterAbility) (d : Device)
    (s : SvcState) (cp : String) (ms : ℕ) (h : HistSvc) :
    (pmConsumptionChangeHandler a d s).writes
      = s.writes ++ [(CName.consumption, specClamp (d.props a.consumptionProperty))]
    ∧ (pcConsumptionChangeHandler cp d ms h).svc.writes
      = h.svc.writes ++ [(CName.totalConsumption, specClamp (d.props cp))] := by
  constructor
  · simp [pmConsumptionChangeHandler, SvcState.setChar,
      PowerMeterAbility.consumption, min_max_eq_specClamp]
  · simp [pcConsumptionChangeHandler, SvcState.setChar, pcConsumption,
      min_max_eq_specClamp]

/-- Claim C1 (amended): every consumption-change event handled by the
history ability appends exactly one history entry, and its timestamp is the
event's unix time in milliseconds divided by 1000 and rounded to the
*nearest* integer (`Math.round`, ties up) — not rounded down. -/
theorem claim1_amended_entry_appended (cp : String) (d : Device) (ms : ℕ)
    (h : HistSvc) :
    (pcConsumptionChangeHandler cp d ms h).entries
      = h.entries ++ [⟨histTime ms, specClamp (d.props cp)⟩]
    ∧ histTime ms = round ((ms : ℚ) / 1000) := by
  refine ⟨?_, rfl⟩
  simp [pcConsumptionChangeHandler, pcConsumption, min_max_eq_specClamp]

/-- Claim C1 is false as stated: at an event occurring at unix time 1500 ms,
the handler appends an entry with timestamp 2 (= `Math.round(1.5)`), while
the event time rounded *down* to whole seconds is 1. -/
theorem claim1_counterexample :
    ((pcConsumptionChangeHandler "power" dev0 1500 hist0).entries.map
      HistEntry.time) = [2]
    ∧ ⌊(1500 : ℚ) / 1000⌋ = 1
    ∧ (2 : ℤ) ≠ 1 := by
  refine ⟨?_, by rw [Int.floor_eq_iff]; norm_num, by decide⟩
  simp [pcConsumptionChangeHandler, hist0, pcCreateService, histTime,
    round_eq]
  norm_num

/-- Claim C9: electric-current and voltage readings are passed through
unchanged — the change handlers write the raw device property value and the
accessors apply no clamp or other transformation. -/
theorem claim9_no_transform (cp p q : String) (d : Device) (s : SvcState) :
    (pmElectricCurrentChangeHandler ⟨cp, some p, some q⟩ d s).writes
      = s.writes ++ [(CName.electricCurrent, d.props p)]
    ∧ (pmVoltageChangeHandler ⟨cp, some p, some q⟩ d s).writes
      = s.writes ++ [(CName.voltage, d.props q)]
    ∧ PowerMeterAbility.electricCurrent ⟨cp, some p, some q⟩ d = d.props p
    ∧ PowerMeterAbility.voltage ⟨cp, some p, some q⟩ d = d.props q := by
  refine ⟨rfl, rfl, rfl, rfl⟩

/-- Claim C10: within one consumption-change event of the history ability,
the power value stored in the appended history entry and the value written
to the total-consumption characteristic are the same quantity — both are
`pcConsumption cp d`, the clamped device reading evaluated by the same
accessor. -/
theorem claim10_entry_power_eq_written (cp : String) (d : Device) (ms : ℕ)
    (h : HistSvc) :
    (pcConsumptionChangeHandler cp d ms h).svc.writes
      = h.svc.writes ++ [(CName.totalConsumption, pcConsumption cp d)]
    ∧ (pcConsumptionChangeHandler cp d ms h).entries
      = h.entries ++ [⟨histTime ms, pcConsumption cp d⟩] := by
  exact ⟨rfl, rfl⟩

/-- `removeListener` is erasure of the first matching registration. -/
lemma removeListener_eq_erase (e : String) (h : Handler) (c : ℕ)
    (ls : List Listener) :
    removeListener e h c ls = ls.erase ⟨e, h, c⟩ := by
  induction ls with
  | nil => rfl
  | cons l t ih =>
    simp only [removeListener, List.erase_cons, ih, beq_iff_eq]

/-- Erasing a registration that sits between two segments yields, up to
permutation, the two segments. -/
lemma erase_mid_perm (l r : List Listener) (t : Listener) :
    List.Perm (((l ++ [t]) ++ r).erase t) (l ++ r) := by
  have h1 : List.Perm ((l ++ [t]) ++ r) (t :: (l ++ r)) :=
    (List.perm_append_singleton t l).append_right r
  have h2 := h1.erase t
  rwa [List.erase_cons_head] at h2

/-- Erasure chains respect permutation of the starting list. -/
lemma foldl_erase_perm (ts : List Listener) :
    ∀ {x y : List Listener}, List.Perm x y →
      List.Perm (ts.foldl (fun acc t => acc.erase t) x)
        (ts.foldl (fun acc t => acc.erase t) y) := by
  induction ts with
  | nil => intro x y p; exact p
  | cons t ts ih => intro x y p; exact ih (p.erase t)

/-- Appending registrations and then erasing each of them in the same order
returns the emitter to a permutation of its original registration list. -/
lemma detach_setup_perm (ts : List Listener) :
    ∀ ls : List Listener,
      List.Perm (ts.foldl (fun acc t => acc.erase t) (ls ++ ts)) ls := by
  induction ts with
  | nil => intro ls; simp
  | cons t ts ih =>
    intro ls
    have h1 : List.Perm ((ls ++ t :: ts).erase t) (ls ++ ts) := by
      have := erase_mid_perm ls ts t
      simpa using this
    exact (foldl_erase_perm ts h1).trans (ih ls)

/-- Claim C5: for every configuration, detach after attach removes from the
device's event emitter exactly the (event, handler, context) registrations
that attach added and no others: the emitter's registration multiset is
restored — for the live-metrics ability (one to three listeners) and the
history ability (its single consumption listener). -/
theorem claim5_detach_removes_exactly (a : PowerMeterAbility) (ctx : ℕ)
    (ls : List Listener) (cp : String) :
    List.Perm (a.detach ctx (a.setupEventHandlers ctx ls)) ls
    ∧ List.Perm (pcDetach cp ctx (pcSetupEventHandlers cp ctx ls)) ls := by
  constructor
  · cases hec : strTruthy a.electricCurrentProperty <;>
      cases hv : strTruthy a.voltageProperty <;>
      simp only [PowerMeterAbility.detach, PowerMeterAbility.setupEventHandlers,
        baseSetupEventHandlers, baseDetach, emitOn, hec, hv,
        Bool.false_eq_true, if_false, if_true, removeListener_eq_erase,
        List.append_assoc, List.singleton_append, List.cons_append,
        List.nil_append]
    · exact detach_setup_perm
        [⟨"change:" ++ a.consumptionProperty, .consumptionChange, ctx⟩] ls
    · exact detach_setup_perm
        [⟨"change:" ++ a.consumptionProperty, .consumptionChange, ctx⟩,
         ⟨"change:" ++ optKey a.voltageProperty, .voltageChange, ctx⟩] ls
    · exact detach_setup_perm
        [⟨"change:" ++ a.consumptionProperty, .consumptionChange, ctx⟩,
         ⟨"change:" ++ optKey a.electricCurrentProperty, .electricCurrentChange, ctx⟩] ls
    · exact detach_setup_perm
        [⟨"change:" ++ a.consumptionProperty, .consumptionChange, ctx⟩,
         ⟨"change:" ++ optKey a.electricCurrentProperty, .electricCurrentChange, ctx⟩,
         ⟨"change:" ++ optKey a.voltageProperty, .voltageChange, ctx⟩] ls
  · simp only [pcDetach, pcSetupEventHandlers, baseSetupEventHandlers,
      baseDetach, emitOn, removeListener_eq_erase]
    exact detach_setup_perm
      [⟨"change:" ++ cp, .histConsumptionChange, ctx⟩] ls

/-- Claim C4: attaching the live-metrics ability registers exactly one
listener when only the consumption property is configured (the optional
properties are null), exactly one more for each of the electric-current and
voltage properties when configured, hence three with all three; the history
ability registers exactly one. -/
theorem claim4_listener_counts (cp : String) (ctx : ℕ) (ls : List Listener) :
    ((PowerMeterAbility.mk cp none none).setupEventHandlers ctx ls).length
      = ls.length + 1
    ∧ (∀ p : String, p ≠ "" →
        ((PowerMeterAbility.mk cp (some p) none).setupEventHandlers ctx ls).length
          = ls.length + 2)
    ∧ (∀ q : String, q ≠ "" →
        ((PowerMeterAbility.mk cp none (some q)).setupEventHandlers ctx ls).length
          = ls.length + 2)
    ∧ (∀ p q : String, p ≠ "" → q ≠ "" →
        ((PowerMeterAbility.mk cp (some p) (some q)).setupEventHandlers ctx ls).length
          = ls.length + 3)
    ∧ (pcSetupEventHandlers cp ctx ls).length = ls.length + 1 := by
  refine ⟨?_, ?_, ?_, ?_, ?_⟩
  · simp [PowerMeterAbility.setupEventHandlers, emitOn,
      baseSetupEventHandlers, strTruthy]
  · intro p hp
    simp [PowerMeterAbility.setupEventHandlers, emitOn,
      baseSetupEventHandlers, strTruthy, hp]
  · intro q hq
    simp [PowerMeterAbility.setupEventHandlers, emitOn,
      baseSetupEventHandlers, strTruthy, hq]
  · intro p q hp hq
    simp [PowerMeterAbility.setupEventHandlers, emitOn,
      baseSetupEventHandlers, strTruthy, hp, hq]
  · simp [pcSetupEventHandlers, emitOn, baseSetupEventHandlers]

/-- Witness for claim C4 at a concrete configuration: with the consumption
property "power", electric-current property "current" and voltage property
"voltage" all configured, exactly three listeners are registered on an
empty emitter. -/
theorem claim4_listener_counts_witness :
    ("current" : String) ≠ "" ∧ ("voltage" : String) ≠ ""
    ∧ ((PowerMeterAbility.mk "power" (some "current")
        (some "voltage")).setupEventHandlers 0 []).length
      = ([] : List Listener).length + 3 := by
  refine ⟨by decide, by decide, ?_⟩
  exact (claim4_listener_counts "power" 0 []).2.2.2.1 "current" "voltage"
    (by decide) (by decide)

/-- Splitting a list at an index past its end: the take/filter/drop
decomposition used below degenerates to the list itself. -/
lemma take_filter_of_ge (u : String) (arr : List ServiceRec) (idx : ℕ)
    (h : arr.length ≤ idx) :
    arr = arr.take idx ++ (arr.drop idx).filter (fun s => !(s.uuid == u)) := by
  rw [List.drop_eq_nil_of_le h, List.take_of_length_le h]
  simp

/-- When no service at or beyond the cursor matches, the removal loop leaves
the accessory's service list unchanged. -/
lemma removeLoop_no_match (u : String) :
    ∀ (n : ℕ) (arr : List ServiceRec) (idx : ℕ), arr.length - idx ≤ n →
      (∀ s ∈ arr.drop idx, (s.uuid == u) = false) →
      removeLoop u arr idx = arr := by
  intro n
  induction n with
  | zero =>
    intro arr idx hn _
    have h : ¬ idx < arr.length := by omega
    rw [removeLoop]
    simp [h]
  | succ n ih =>
    intro arr idx hn hmem
    rw [removeLoop]
    by_cases h : idx < arr.length
    · have hd : arr.drop idx = arr[idx] :: arr.drop (idx + 1) :=
        List.drop_eq_getElem_cons h
      have hu : (arr[idx].uuid == u) = false := by
        apply hmem
        rw [hd]
        exact List.mem_cons_self _ _
      simp only [dif_pos h, List.get_eq_getElem, hu, Bool.false_eq_true,
        if_false]
      exact ih arr (idx + 1) (by omega)
        (fun s hs => hmem s (by rw [hd]; exact List.mem_cons_of_mem _ hs))
    · simp [h]

/-- When at most one service at or beyond the cursor matches, the removal
loop removes exactly the matching services beyond the cursor (the skipping
behaviour cannot manifest). -/
lemma removeLoop_filter (u : String) :
    ∀ (n : ℕ) (arr : List ServiceRec) (idx : ℕ), arr.length - idx ≤ n →
      (arr.drop idx).countP (fun s => s.uuid == u) ≤ 1 →
      removeLoop u arr idx
        = arr.take idx ++ (arr.drop idx).filter (fun s => !(s.uuid == u)) := by
  intro n
  induction n with
  | zero =>
    intro arr idx hn _
    have h : ¬ idx < arr.length := by omega
    rw [removeLoop]
    simp only [h, dif_neg, not_false_eq_true]
    exact take_filter_of_ge u arr idx (by omega)
  | succ n ih =>
    intro arr idx hn hcnt
    rw [removeLoop]
    by_cases h : idx < arr.length
    · have hd : arr.drop idx = arr[idx] :: arr.drop (idx + 1) :=
        List.drop_eq_getElem_cons h
      by_cases hu : (arr[idx].uuid == u) = true
      · simp only [dif_pos h, List.get_eq_getElem, hu, if_true]
        have hc0 : (arr.drop (idx + 1)).countP (fun s => s.uuid == u) = 0 := by
          rw [hd, List.countP_cons] at hcnt
          simp only [hu, if_true] at hcnt
          omega
        have hnm : ∀ s ∈ arr.drop (idx + 1), (s.uuid == u) = false := by
          intro s hs
          have := List.countP_eq_zero.mp hc0 s hs
          simpa using this
        have herase : arr.eraseIdx idx = arr.take idx ++ arr.drop (idx + 1) :=
          List.eraseIdx_eq_take_drop_succ arr idx
        have hlen : (arr.eraseIdx idx).length = arr.length - 1 :=
          List.length_eraseIdx_of_lt h
        have htklen : (arr.take idx).length = idx := by
          simp [List.length_take]
          omega
        have hdrop2 : (arr.eraseIdx idx).drop (idx + 1) = arr.drop (idx + 2) := by
          rw [herase]
          have : idx + 1 = (arr.take idx).length + 1 := by omega
          rw [this, List.drop_append, List.drop_drop, htklen]
        have hnm2 : ∀ s ∈ (arr.eraseIdx idx).drop (idx + 1),
            (s.uuid == u) = false := by
          intro s hs
          rw [hdrop2] at hs
          have : s ∈ arr.drop (idx + 1) := by
            have h21 : arr.drop (idx + 2) = (arr.drop (idx + 1)).drop 1 := by
              rw [List.drop_drop]
            rw [h21] at hs
            exact List.mem_of_mem_drop hs
          exact hnm s this
        rw [removeLoop_no_match u n (arr.eraseIdx idx) (idx + 1)
          (by omega) hnm2]
        have hfself : (arr.drop (idx + 1)).filter (fun s => !(s.uuid == u))
            = arr.drop (idx + 1) :=
          List.filter_eq_self.mpr (fun s hs => by simp [hnm s hs])
        have hfd : (arr.drop idx).filter (fun s => !(s.uuid == u))
            = arr.drop (idx + 1) := by
          rw [hd, List.filter_cons_of_neg (by simp [hu]), hfself]
        rw [herase, hfd]
      · simp only [dif_pos h, List.get_eq_getElem, hu, Bool.false_eq_true,
          if_false]
        have hcnt1 : (arr.drop (idx + 1)).countP (fun s => s.uuid == u) ≤ 1 := by
          rw [hd, List.countP_cons] at hcnt
          omega
        rw [ih arr (idx + 1) (by omega) hcnt1]
        have hub : (arr[idx].uuid == u) = false := by
          simpa using hu
        have htk : arr.take (idx + 1) = arr.take idx ++ [arr[idx]] := by
          rw [List.take_succ, List.getElem?_eq_getElem h]
          rfl
        have hfd : (arr.drop idx).filter (fun s => !(s.uuid == u))
            = arr[idx] :: (arr.drop (idx + 1)).filter (fun s => !(s.uuid == u)) := by
          rw [hd, List.filter_cons_of_pos (by simp [hub])]
        rw [htk, hfd]
        simp only [List.append_assoc, List.singleton_append]
    · simp only [dif_neg h]
      exact take_filter_of_ge u arr idx (by omega)

/-- Claim C6: invoking setup on the history ability a second time, when the
compatible history service created by the first invocation is in place,
takes the branch that constructs nothing and removes nothing — the service
object and the accessory's service list are exactly those left by the first
invocation. -/
theorem claim6_setup_idempotent (cp : String) (d : Device) (sp : String)
    (services : List ServiceRec) (f1 f2 : ℕ) (ls : List Listener) (ctx : ℕ) :
    (pcSetup cp d sp (pcSetup cp d sp none services f1 ls ctx).service
      (pcSetup cp d sp none services f1 ls ctx).services f2
      (pcSetup cp d sp none services f1 ls ctx).listeners ctx).created = false
    ∧ (pcSetup cp d sp (pcSetup cp d sp none services f1 ls ctx).service
        (pcSetup cp d sp none services f1 ls ctx).services f2
        (pcSetup cp d sp none services f1 ls ctx).listeners ctx).services
      = (pcSetup cp d sp none services f1 ls ctx).services
    ∧ (pcSetup cp d sp (pcSetup cp d sp none services f1 ls ctx).service
        (pcSetup cp d sp none services f1 ls ctx).services f2
        (pcSetup cp d sp none services f1 ls ctx).listeners ctx).service
      = (pcSetup cp d sp none services f1 ls ctx).service := by
  refine ⟨rfl, rfl, rfl⟩

/-- Claim C7 (amended): when no compatible history service exists and the
accessory holds at most one service with the history-service UUID, setup
removes all such services and constructs exactly one new history service
with a 10-minute sampling window and persistence filename
`device.id + "_persist.json"`.  (With two or more same-UUID services the
removal pass — a live iteration over an array being spliced — skips the
service that slides into a removed slot, so not every one is removed; see
the counterexample.) -/
theorem claim7_amended_setup_creates (cp : String) (d : Device) (sp : String)
    (services : List ServiceRec) (fresh : ℕ) (ls : List Listener) (ctx : ℕ)
    (hcnt : services.countP (fun s => s.uuid == fakeGatoUUID) ≤ 1) :
    (pcSetup cp d sp none services fresh ls ctx).services
      = services.filter (fun s => !(s.uuid == fakeGatoUUID))
          ++ [⟨fakeGatoUUID, fresh⟩]
    ∧ (pcSetup cp d sp none services fresh ls ctx).service
      = some (pcCreateService cp d sp)
    ∧ (pcCreateService cp d sp).minutes = 10
    ∧ (pcCreateService cp d sp).filename = d.id ++ "_persist.json"
    ∧ (pcSetup cp d sp none services fresh ls ctx).created = true := by
  refine ⟨?_, rfl, rfl, rfl, rfl⟩
  have hrl := removeLoop_filter fakeGatoUUID services.length services 0
    (by omega) (by simpa using hcnt)
  have hr : removeLoop fakeGatoUUID services 0
      = services.filter (fun s => !(s.uuid == fakeGatoUUID)) := by
    simpa using hrl
  show removeLoop fakeGatoUUID services 0 ++ [⟨fakeGatoUUID, fresh⟩] = _
  rw [hr]

/-- Witness for the amended claim C7: an accessory holding one stale
history service and one unrelated service satisfies the at-most-one
hypothesis, and setup replaces the stale service with exactly one new one. -/
theorem claim7_amended_witness :
    ([⟨fakeGatoUUID, 0⟩, ⟨"other-uuid", 1⟩] : List ServiceRec).countP
      (fun s => s.uuid == fakeGatoUUID) ≤ 1
    ∧ ((pcSetup "power" dev0 "/var/homebridge" none
          [⟨fakeGatoUUID, 0⟩, ⟨"other-uuid", 1⟩] 99 [] 0).services
        = ([⟨fakeGatoUUID, 0⟩, ⟨"other-uuid", 1⟩] : List ServiceRec).filter
            (fun s => !(s.uuid == fakeGatoUUID)) ++ [⟨fakeGatoUUID, 99⟩]
      ∧ (pcSetup "power" dev0 "/var/homebridge" none
          [⟨fakeGatoUUID, 0⟩, ⟨"other-uuid", 1⟩] 99 [] 0).service
        = some (pcCreateService "power" dev0 "/var/homebridge")
      ∧ (pcCreateService "power" dev0 "/var/homebridge").minutes = 10
      ∧ (pcCreateService "power" dev0 "/var/homebridge").filename
        = dev0.id ++ "_persist.json"
      ∧ (pcSetup "power" dev0 "/var/homebridge" none
          [⟨fakeGatoUUID, 0⟩, ⟨"other-uuid", 1⟩] 99 [] 0).created = true) := by
  refine ⟨by decide, ?_⟩
  exact claim7_amended_setup_creates "power" dev0 "/var/homebridge"
    [⟨fakeGatoUUID, 0⟩, ⟨"other-uuid", 1⟩] 99 [] 0 (by decide)

/-- Claim C7 is false as stated: with two stale same-UUID history services
attached, the removal pass removes only the first — the second (present
before setup and with the matching UUID) survives into the resulting
service list, so not every matching service is removed before the new
service is constructed. -/
theorem claim7_counterexample :
    (pcSetup "power" dev0 "/var/homebridge" none
      [⟨fakeGatoUUID, 0⟩, ⟨fakeGatoUUID, 1⟩] 99 [] 0).services
      = [⟨fakeGatoUUID, 1⟩, ⟨fakeGatoUUID, 99⟩]
    ∧ (⟨fakeGatoUUID, 1⟩ : ServiceRec)
        ∈ ([⟨fakeGatoUUID, 0⟩, ⟨fakeGatoUUID, 1⟩] : List ServiceRec)
    ∧ (⟨fakeGatoUUID, 1⟩ : ServiceRec).uuid = fakeGatoUUID
    ∧ (⟨fakeGatoUUID, 1⟩ : ServiceRec)
        ∈ (pcSetup "power" dev0 "/var/homebridge" none
            [⟨fakeGatoUUID, 0⟩, ⟨fakeGatoUUID, 1⟩] 99 [] 0).services := by
  have h1 : removeLoop fakeGatoUUID [⟨fakeGatoUUID, 0⟩, ⟨fakeGatoUUID, 1⟩] 0
      = [⟨fakeGatoUUID, 1⟩] := by
    rw [removeLoop]
    simp +decide only []
    rw [removeLoop]
    simp +decide only []
  have h2 : (pcSetup "power" dev0 "/var/homebridge" none
      [⟨fakeGatoUUID, 0⟩, ⟨fakeGatoUUID, 1⟩] 99 [] 0).services
      = removeLoop fakeGatoUUID [⟨fakeGatoUUID, 0⟩, ⟨fakeGatoUUID, 1⟩] 0
        ++ [⟨fakeGatoUUID, 99⟩] := rfl
  refine ⟨?_, by decide, rfl, ?_⟩
  · rw [h2, h1]
    rfl
  · rw [h2, h1]
    decide

/-- A null optional property is falsy. -/
@[simp] lemma strTruthy_none : strTruthy none = false := rfl

/-- Claim C8: on service creation the live-metrics ability seeds the
consumption characteristic with the clamped current device value; it seeds
the electric-current characteristic exactly when an electric-current
property name was supplied at construction, and likewise the voltage
characteristic; no other characteristic is set. -/
theorem claim8_seed_characteristics (cp : String) (d : Device) :
    (∀ ec v : Option String,
      ((PowerMeterAbility.mk cp ec v).createService d).chars CName.consumption
        = some (specClamp (d.props cp)))
    ∧ (∀ v : Option String,
        ((PowerMeterAbility.mk cp none v).createService d).chars
          CName.electricCurrent = none)
    ∧ (∀ (p : String) (v : Option String), p ≠ "" →
        ((PowerMeterAbility.mk cp (some p) v).createService d).chars
          CName.electricCurrent = some (d.props p))
    ∧ (∀ ec : Option String,
        ((PowerMeterAbility.mk cp ec none).createService d).chars
          CName.voltage = none)
    ∧ (∀ (ec : Option String) (q : String), q ≠ "" →
        ((PowerMeterAbility.mk cp ec (some q)).createService d).chars
          CName.voltage = some (d.props q))
    ∧ (∀ ec v : Option String,
        ((PowerMeterAbility.mk cp ec v).createService d).chars
          CName.totalConsumption = none) := by
  refine ⟨?_, ?_, ?_, ?_, ?_, ?_⟩
  · intro ec v
    cases hec : strTruthy ec <;> cases hv : strTruthy v <;>
      simp [PowerMeterAbility.createService, SvcState.setChar, emptySvc,
        hec, hv, PowerMeterAbility.consumption, min_max_eq_specClamp]
  · intro v
    cases hv : strTruthy v <;>
      simp [PowerMeterAbility.createService, SvcState.setChar, emptySvc, hv]
  · intro p v hp
    have hts : strTruthy (some p) = true := by simp [strTruthy, hp]
    cases hv : strTruthy v <;>
      simp [PowerMeterAbility.createService, SvcState.setChar, emptySvc,
        hts, hv, PowerMeterAbility.electricCurrent, optKey]
  · intro ec
    cases hec : strTruthy ec <;>
      simp [PowerMeterAbility.createService, SvcState.setChar, emptySvc, hec]
  · intro ec q hq
    have hts : strTruthy (some q) = true := by simp [strTruthy, hq]
    cases hec : strTruthy ec <;>
      simp [PowerMeterAbility.createService, SvcState.setChar, emptySvc,
        hts, hec, PowerMeterAbility.voltage, optKey]
  · intro ec v
    cases hec : strTruthy ec <;> cases hv : strTruthy v <;>
      simp [PowerMeterAbility.createService, SvcState.setChar, emptySvc,
        hec, hv]

/-- Witness for claim C8 at a concrete configuration: with electric-current
property "current" and voltage property "voltage" supplied, both optional
characteristics are seeded with the raw device readings. -/
theorem claim8_seed_characteristics_witness :
    ("current" : String) ≠ "" ∧ ("voltage" : String) ≠ ""
    ∧ ((PowerMeterAbility.mk "power" (some "current")
          (some "voltage")).createService dev0).chars CName.electricCurrent
        = some (dev0.props "current")
    ∧ ((PowerMeterAbility.mk "power" (some "current")
          (some "voltage")).createService dev0).chars CName.voltage
        = some (dev0.props "voltage") := by
  refine ⟨by decide, by decide, ?_, ?_⟩
  · exact (claim8_seed_characteristics "power" dev0).2.2.1 "current"
      (some "voltage") (by decide)
  · exact (claim8_seed_characteristics "power" dev0).2.2.2.2.1
      (some "current") "voltage" (by decide)

end PowerMeterModel
